import Mathlib

/-!
Verification of the redispatch risk-scoring engine of the dashOZE
dashboard.  The scorer is the class `RedispatchRiskScorer` of
`src/assets/js/redispatch-risk-scorer.js`; the per-cell input snapshot
builder is the cell loop of `updateRiskAssessmentChart` in
`src/assets/js/risk-calculator.js` (lines 2638-2790).

JavaScript numbers are modelled as rationals (the scorer only adds,
multiplies, divides and compares; no float rounding is observable at the
breakpoints the claims mention), except for the forecast-decay factor
`Math.exp(-dayOffset * 0.1)` of the snapshot builder, which is modelled
over the reals.  `Math.round` is `fun q => ⌊q + 1/2⌋` (ECMA-262: round
half toward positive infinity), `Math.min` is `min`.

A possibly-missing numeric field of a JS record is an `Option ℚ`; the
pervasive fallback idiom `x || d` (which replaces both a missing and a
zero value by `d`, since `0` is falsy) is the helper `getOr`.
-/

namespace RedispatchRiskScorer

/-- JS `x || d` on an optional numeric field: a missing or zero value
falls back to the default `d`. -/
def getOr (o : Option ℚ) (d : ℚ) : ℚ :=
  match o with
  | none => d
  | some v => if v = 0 then d else v

/-- JS `x || 0`: the value of a possibly-missing numeric field. -/
def jsNum (o : Option ℚ) : ℚ := getOr o 0

/-- JS `Math.round`: round half toward positive infinity. -/
def jsRound (q : ℚ) : ℤ := ⌊q + 1/2⌋

@[simp] theorem getOr_none (d : ℚ) : getOr none d = d := rfl

@[simp] theorem getOr_some (v d : ℚ) :
    getOr (some v) d = if v = 0 then d else v := rfl

@[simp] theorem jsNum_none : jsNum none = 0 := rfl

@[simp] theorem jsNum_some (v : ℚ) : jsNum (some v) = v := by
  unfold jsNum getOr
  split <;> simp_all

/-- The argument record of `calculateRiskScore` (the `scoreData` object
built by the grid pass).  Numeric fields a caller may omit are optional;
`hour` and `dayOfWeek` are always supplied by the grid.  The field
`hasReserveData` mirrors the JS flag of the same name (absent, `true` or
`false`). -/
structure RiskInput where
  hour : ℤ
  dayOfWeek : ℤ
  hasReserveData : Option Bool := none
  availableReserve : Option ℚ := none
  requiredReserve : Option ℚ := none
  systemLoad : Option ℚ := none
  pvGeneration : Option ℚ := none
  windGeneration : Option ℚ := none
  baseloadGeneration : Option ℚ := none
  powerExchange : Option ℚ := none
  pvDelta : Option ℚ := none
  windDelta : Option ℚ := none
  baseloadDelta : Option ℚ := none
  demandDelta : Option ℚ := none
  pvGradient : Option ℚ := none
  windGradient : Option ℚ := none
deriving DecidableEq

/-- The six scoring factors, in the insertion order of `this.weights`. -/
inductive FactorKey
  | reserveMargin
  | renewableDropRate
  | baseloadSurge
  | demandSpike
  | criticalHours
  | systemImbalance
deriving DecidableEq

/-- The weight table `this.weights` fixed in the constructor. -/
def weights : FactorKey → ℚ
  | .reserveMargin => 35
  | .renewableDropRate => 25
  | .baseloadSurge => 15
  | .demandSpike => 10
  | .criticalHours => 10
  | .systemImbalance => 5

/-- `Object.keys(this.weights)` in insertion order. -/
def factorKeys : List FactorKey :=
  [.reserveMargin, .renewableDropRate, .baseloadSurge, .demandSpike,
   .criticalHours, .systemImbalance]

/-- The keys left in `activeWeights` after `delete activeWeights.reserveMargin`
(insertion order is preserved by deletion). -/
def otherFactorKeys : List FactorKey :=
  [.renewableDropRate, .baseloadSurge, .demandSpike, .criticalHours,
   .systemImbalance]

/-- `remainingWeightSum`: the reduce over the surviving weights. -/
def remainingWeightSum : ℚ := (otherFactorKeys.map weights).sum

/-- The guard `data.hasReserveData !== false && data.availableReserve !==
undefined && data.requiredReserve !== undefined` opening
`calculateRiskScore`. -/
def hasReserveData (data : RiskInput) : Bool :=
  data.hasReserveData ≠ some false
    && data.availableReserve.isSome && data.requiredReserve.isSome

/-- `calculateReserveMarginScore`: breakpoints on the reserve margin;
`null` when either reserve field is undefined. -/
def calculateReserveMarginScore (data : RiskInput) : Option ℚ :=
  match data.availableReserve, data.requiredReserve with
  | some availableReserve, some requiredReserve =>
    let margin := availableReserve - requiredReserve
    some (if margin < 0 then 100
      else if margin < 300 then 85
      else if margin < 500 then 65
      else if margin < 1000 then 40
      else if margin < 1500 then 20
      else 0)
  | _, _ => none

/-- `calculateRenewableDropScore`: breakpoints on the combined PV+wind
drop (clamped to nonpositive), plus a gradient bonus capped at 100. -/
def calculateRenewableDropScore (data : RiskInput) : ℚ :=
  let totalRenewableDrop := min 0 (jsNum data.pvDelta + jsNum data.windDelta)
  let totalGradient := jsNum data.pvGradient + jsNum data.windGradient
  let score : ℚ :=
    if totalRenewableDrop < -2000 then 100
    else if totalRenewableDrop < -1500 then 80
    else if totalRenewableDrop < -1000 then 60
    else if totalRenewableDrop < -500 then 40
    else if totalRenewableDrop < -200 then 20
    else 0
  if |totalGradient| > 500 then min 100 (score + 20) else score

/-- `calculateBaseloadSurgeScore`: evening hours (16-20) use the full
breakpoint ladder, other hours only the coarse `> 500` test. -/
def calculateBaseloadSurgeScore (data : RiskInput) : ℚ :=
  let baseloadDelta := jsNum data.baseloadDelta
  if ¬(16 ≤ data.hour ∧ data.hour ≤ 20) then
    (if baseloadDelta > 500 then 20 else 0)
  else if baseloadDelta > 1500 then 100
  else if baseloadDelta > 1000 then 70
  else if baseloadDelta > 500 then 40
  else if baseloadDelta > 200 then 20
  else 0

/-- `calculateDemandSpikeScore`: the demand change rate relative to the
current system load (default load 20000). -/
def calculateDemandSpikeScore (data : RiskInput) : ℚ :=
  let demandChangeRate := jsNum data.demandDelta / getOr data.systemLoad 20000 * 100
  if demandChangeRate > 5 then 100
  else if demandChangeRate > 3 then 60
  else if demandChangeRate > 2 then 30
  else if demandChangeRate > 1 then 15
  else 0

/-- `calculateCriticalHoursScore`: the fixed weekday schedule. -/
def calculateCriticalHoursScore (data : RiskInput) : ℚ :=
  if ¬(1 ≤ data.dayOfWeek ∧ data.dayOfWeek ≤ 5) then 0
  else if 7 ≤ data.hour ∧ data.hour ≤ 9 then 60
  else if 17 ≤ data.hour ∧ data.hour ≤ 20 then 100
  else if (6 ≤ data.hour ∧ data.hour ≤ 10) ∨ (16 ≤ data.hour ∧ data.hour ≤ 21) then 30
  else 0

/-- `calculateSystemImbalanceScore`: breakpoints on the absolute
cross-border exchange. -/
def calculateSystemImbalanceScore (data : RiskInput) : ℚ :=
  let absExchange := |jsNum data.powerExchange|
  if absExchange > 3000 then 100
  else if absExchange > 2000 then 60
  else if absExchange > 1000 then 30
  else 0

/-- The `scores` object of `calculateRiskScore`: `reserveMargin` is
nullable, the other five sub-scores are plain numbers. -/
structure ComponentScores where
  reserveMargin : Option ℚ
  renewableDropRate : ℚ
  baseloadSurge : ℚ
  demandSpike : ℚ
  criticalHours : ℚ
  systemImbalance : ℚ
deriving DecidableEq

/-- Lookup of a sub-score by factor key (`scores[key]`). -/
def ComponentScores.get (s : ComponentScores) : FactorKey → Option ℚ
  | .reserveMargin => s.reserveMargin
  | .renewableDropRate => some s.renewableDropRate
  | .baseloadSurge => some s.baseloadSurge
  | .demandSpike => some s.demandSpike
  | .criticalHours => some s.criticalHours
  | .systemImbalance => some s.systemImbalance

/-- `Object.values(scores)` in insertion order. -/
def ComponentScores.values (s : ComponentScores) : List (Option ℚ) :=
  [s.reserveMargin, some s.renewableDropRate, some s.baseloadSurge,
   some s.demandSpike, some s.criticalHours, some s.systemImbalance]

/-- The `scores` record built at the top of `calculateRiskScore`. -/
def componentScores (data : RiskInput) : ComponentScores :=
  { reserveMargin :=
      if hasReserveData data then calculateReserveMarginScore data else none
    renewableDropRate := calculateRenewableDropScore data
    baseloadSurge := calculateBaseloadSurgeScore data
    demandSpike := calculateDemandSpikeScore data
    criticalHours := calculateCriticalHoursScore data
    systemImbalance := calculateSystemImbalanceScore data }

/-- `activeWeights` as an association list in `Object.entries` order:
the constructor weights when reserve data is present, otherwise the
reserve weight (35) is deleted and redistributed proportionally over the
remaining five keys. -/
def activeWeights (hasRes : Bool) : List (FactorKey × ℚ) :=
  if hasRes then factorKeys.map (fun k => (k, weights k))
  else otherFactorKeys.map (fun k =>
    (k, weights k + weights k / remainingWeightSum * weights .reserveMargin))

/-- The `totalScore` accumulation loop: each available sub-score
contributes `score * weight / 100`; a `null` sub-score contributes
nothing. -/
def rawTotalScore (data : RiskInput) : ℚ :=
  ((activeWeights (hasReserveData data)).map (fun p =>
    match (componentScores data).get p.1 with
    | some s => s * p.2 / 100
    | none => 0)).sum

/-- Number of non-null sub-scores at least 80 (`criticalFactors`). -/
def criticalFactorCount (scores : ComponentScores) : ℕ :=
  (scores.values.filter (fun o =>
    match o with
    | some s => decide (80 ≤ s)
    | none => false)).length

/-- Number of non-null sub-scores in [50, 80) (`highFactors`). -/
def highFactorCount (scores : ComponentScores) : ℕ :=
  (scores.values.filter (fun o =>
    match o with
    | some s => decide (¬80 ≤ s ∧ 50 ≤ s)
    | none => false)).length

/-- `calculateSynergyBonus`: bonus points for combinations of critical
and high factors. -/
def calculateSynergyBonus (scores : ComponentScores) : ℚ :=
  if 3 ≤ criticalFactorCount scores then 15
  else if 2 ≤ criticalFactorCount scores then 10
  else if 1 ≤ criticalFactorCount scores ∧ 2 ≤ highFactorCount scores then 8
  else if 3 ≤ highFactorCount scores then 5
  else 0

/-- `totalScore = Math.min(100, Math.round(totalScore + synergy))`. -/
def totalScore (data : RiskInput) : ℤ :=
  min 100 (jsRound (rawTotalScore data + calculateSynergyBonus (componentScores data)))

/-- `getRiskLevel` with the constructor thresholds 25/50/75. -/
def getRiskLevel (score : ℤ) : String :=
  if score ≤ 25 then "low"
  else if score ≤ 50 then "medium"
  else if score ≤ 75 then "high"
  else "critical"

/-- One entry of the `factors` list of `getDetailedFactors`.  The source
objects also carry a display-only string `value` (the raw signal run
through `toFixed`); that formatted string is presentation glue no claim
touches and is not modelled. -/
structure FactorEntry where
  factor : String
  impact : ℤ
  icon : String
  critical : Bool := false
  info : Bool := false
deriving DecidableEq

/-- The order produced by the JS sort comparator of `getDetailedFactors`
(`a` may precede `b`): `a.info ? 1 : b.info ? -1 : b.impact - a.impact`,
that is, informational entries sink to the end and the rest sort by
descending impact.  When both entries are informational the JS comparator
is inconsistent (returns 1 either way); the relation is totalised there
(the source never builds more than one informational entry). -/
def factorLe (a b : FactorEntry) : Prop :=
  b.info = true ∨ (a.info = false ∧ b.impact ≤ a.impact)

instance : DecidableRel factorLe := fun a b => by
  unfold factorLe; infer_instance

instance : IsTotal FactorEntry factorLe where
  total a b := by
    unfold factorLe
    cases ha : a.info <;> cases hb : b.info <;> simp [ha, hb] <;> omega

instance : IsTrans FactorEntry factorLe where
  trans a b c hab hbc := by
    unfold factorLe at *
    cases ha : a.info <;> cases hb : b.info <;> cases hc : c.info <;>
      simp_all <;> omega

/-- The reserve-margin block of `getDetailedFactors`: a margin entry when
reserve data is present and the sub-score is positive, the informational
no-data entry when reserve data is absent.  The `getD 0` reads of the
reserve fields stand for the direct JS reads, which only happen under the
`hasReserveData` guard that makes both fields present. -/
def reserveMarginFactors (scores : ComponentScores) (data : RiskInput)
    (hasRes : Bool) : List FactorEntry :=
  if hasRes then
    match scores.reserveMargin with
    | some s =>
      if 0 < s then
        [{ factor :=
             if data.availableReserve.getD 0 - data.requiredReserve.getD 0 < 0 then
               "Deficyt rezerwy!"
             else if data.availableReserve.getD 0 - data.requiredReserve.getD 0 < 300 then
               "Krytycznie niski margines"
             else if data.availableReserve.getD 0 - data.requiredReserve.getD 0 < 500 then
               "Bardzo niski margines"
             else "Niski margines rezerwy"
           impact := jsRound (s * weights .reserveMargin / 100)
           icon := "activity"
           critical :=
             decide (data.availableReserve.getD 0 - data.requiredReserve.getD 0 < 300) }]
      else []
    | none => []
  else
    [{ factor := "Brak danych o rezerwach", impact := 0, icon := "help-circle",
       info := true }]

/-- The renewable-drop block of `getDetailedFactors`; without reserve
data the hardcoded weight 38 replaces the nominal 25. -/
def renewableDropFactors (scores : ComponentScores) (data : RiskInput)
    (hasRes : Bool) : List FactorEntry :=
  if 0 < scores.renewableDropRate then
    [{ factor :=
         if 1500 < |jsNum data.pvDelta + jsNum data.windDelta| then
           "Gwałtowny spadek OZE!"
         else "Spadek generacji OZE"
       impact := jsRound (scores.renewableDropRate *
         (if hasRes then weights .renewableDropRate else 38) / 100)
       icon := "trending-down"
       critical := decide (1500 < |jsNum data.pvDelta + jsNum data.windDelta|) }]
  else []

/-- The baseload-surge block of `getDetailedFactors`; without reserve
data the hardcoded weight 23 replaces the nominal 15. -/
def baseloadSurgeFactors (scores : ComponentScores) (data : RiskInput)
    (hasRes : Bool) : List FactorEntry :=
  if 0 < scores.baseloadSurge then
    [{ factor :=
         if 1000 < jsNum data.baseloadDelta then "Gwałtowny wzrost JW RB!"
         else "Wzrost generacji JW RB"
       impact := jsRound (scores.baseloadSurge *
         (if hasRes then weights .baseloadSurge else 23) / 100)
       icon := "zap"
       critical := decide (1000 < jsNum data.baseloadDelta ∧
         16 ≤ data.hour ∧ data.hour ≤ 20) }]
  else []

/-- The demand-spike block of `getDetailedFactors`; without reserve data
the hardcoded weight 15 replaces the nominal 10. -/
def demandSpikeFactors (scores : ComponentScores) (hasRes : Bool) :
    List FactorEntry :=
  if 0 < scores.demandSpike then
    [{ factor := "Wzrost zapotrzebowania"
       impact := jsRound (scores.demandSpike *
         (if hasRes then weights .demandSpike else 15) / 100)
       icon := "trending-up" }]
  else []

/-- The critical-hours block of `getDetailedFactors`; without reserve
data the hardcoded weight 15 replaces the nominal 10. -/
def criticalHoursFactors (scores : ComponentScores) (data : RiskInput)
    (hasRes : Bool) : List FactorEntry :=
  if 0 < scores.criticalHours then
    [{ factor :=
         if 17 ≤ data.hour ∧ data.hour ≤ 20 then "Szczyt wieczorny"
         else "Godzina szczytowa"
       impact := jsRound (scores.criticalHours *
         (if hasRes then weights .criticalHours else 15) / 100)
       icon := "clock" }]
  else []

/-- `getDetailedFactors`: the five pushed blocks (the systemImbalance
sub-score pushes no entry in the source) followed by the stable JS sort
under `factorLe`.  A stable sort is observationally the sort of
ECMAScript 2019 `Array.prototype.sort` for a consistent comparator. -/
def getDetailedFactors (scores : ComponentScores) (data : RiskInput)
    (hasRes : Bool) : List FactorEntry :=
  List.insertionSort factorLe
    (reserveMarginFactors scores data hasRes
      ++ renewableDropFactors scores data hasRes
      ++ baseloadSurgeFactors scores data hasRes
      ++ demandSpikeFactors scores hasRes
      ++ criticalHoursFactors scores data hasRes)

/-- Advisory string: no reserve data (pushed first when reserve data is
absent). -/
def msgNoReserveData : String :=
  "ℹ️ Brak danych o rezerwach mocy - analiza oparta na pozostałych wskaźnikach"

/-- Advisory string: critical reserve margin. -/
def msgReserveAlert : String :=
  "🔴 ALERT: Krytyczny margines rezerwy! Wysokie prawdopodobieństwo wezwania"

/-- Advisory string: low reserve margin. -/
def msgReserveWarn : String :=
  "⚠️ Niski margines rezerwy - przygotuj się na możliwe wezwanie"

/-- Advisory string: steep renewable drop. -/
def msgRenewableDrop : String :=
  "📉 Gwałtowny spadek OZE - system potrzebuje szybkiego bilansowania"

/-- Advisory string: evening baseload surge. -/
def msgEveningSurge : String :=
  "⚡ Wieczorny wzrost JW RB - typowy sygnał nadchodzącego wezwania"

/-- Advisory string: peak hours. -/
def msgPeakHours : String :=
  "⏰ Godziny szczytowe - zwiększ czujność na komunikaty OSP"

/-- Advisory string: consider immediate reduction (threat at least 70). -/
def msgReduceSales : String :=
  "🚨 Rozważ natychmiastową redukcję sprzedaży na TGE"

/-- Advisory string: monitor the situation (threat at least 50). -/
def msgMonitor : String :=
  "📊 Monitoruj sytuację i przygotuj plan redukcji"

/-- Advisory string: limited analysis (appended when the no-reserve-data
line is the only one). -/
def msgLimitedAnalysis : String :=
  "📊 Analiza ograniczona - bazuje na trendach OZE i zapotrzebowania"

/-- Advisory string: stable situation (appended when nothing else was). -/
def msgStable : String :=
  "✅ Sytuacja stabilna - niskie ryzyko wezwania"

/-- The composite `threatLevel` of `getRecommendations`: reserve margin,
renewable drop and baseload surge weighted with the same effective
weights the factor list uses. -/
def threatLevel (scores : ComponentScores) (hasRes : Bool) : ℚ :=
  (if hasRes then
     match scores.reserveMargin with
     | some s => s * weights .reserveMargin / 100
     | none => 0
   else 0)
  + scores.renewableDropRate * (if hasRes then weights .renewableDropRate else 38) / 100
  + scores.baseloadSurge * (if hasRes then weights .baseloadSurge else 23) / 100

/-- `getRecommendations`: threshold-triggered advisory strings.  The
source tests whether the first recommendation includes the substring
Brak danych; among the strings this function can push, only
`msgNoReserveData` contains that substring, so on a one-element list the
test is equivalent to equality with `msgNoReserveData`.  The `30 < scores.reserveMargin.getD 0` guard
models the JS comparison `scores.reserveMargin > 30`, where a `null`
sub-score coerces to 0 and fails the comparison. -/
def getRecommendations (scores : ComponentScores) (data : RiskInput)
    (hasRes : Bool) : List String :=
  let recs : List String :=
    (if hasRes then [] else [msgNoReserveData])
    ++ (if hasRes then
          match scores.reserveMargin with
          | some s =>
            if 80 ≤ s ∨
                data.availableReserve.getD 0 - data.requiredReserve.getD 0 < 300 then
              [msgReserveAlert]
            else if 50 ≤ s then [msgReserveWarn]
            else []
          | none => []
        else [])
    ++ (if 60 ≤ scores.renewableDropRate then [msgRenewableDrop] else [])
    ++ (if 50 ≤ scores.baseloadSurge ∧ 16 ≤ data.hour ∧ data.hour ≤ 20 then
          [msgEveningSurge] else [])
    ++ (if 0 < scores.criticalHours ∧
            (hasRes = false ∨ 30 < scores.reserveMargin.getD 0) then
          [msgPeakHours] else [])
    ++ (if 70 ≤ threatLevel scores hasRes then [msgReduceSales]
        else if 50 ≤ threatLevel scores hasRes then [msgMonitor]
        else [])
  let recs2 :=
    if recs.length = 1 ∧ recs.headD "" = msgNoReserveData then
      recs ++ [msgLimitedAnalysis]
    else recs
  if recs2.length = 0 then [msgStable] else recs2

/-- The result object of `calculateRiskScore`. -/
structure RiskScore where
  totalScore : ℤ
  components : ComponentScores
  riskLevel : String
  recommendations : List String
  factors : List FactorEntry
  hasReserveData : Bool
  dataQuality : String
deriving DecidableEq

/-- `calculateRiskScore`: the full scoring pipeline. -/
def calculateRiskScore (data : RiskInput) : RiskScore :=
  { totalScore := totalScore data
    components := componentScores data
    riskLevel := getRiskLevel (totalScore data)
    recommendations := getRecommendations (componentScores data) data (hasReserveData data)
    factors := getDetailedFactors (componentScores data) data (hasReserveData data)
    hasReserveData := hasReserveData data
    dataQuality := if hasReserveData data then "complete" else "partial" }

end RedispatchRiskScorer

namespace RiskCalculator

open RedispatchRiskScorer (getOr)

/-- The collaborator data consumed by the per-cell loop of
`updateRiskAssessmentChart`.  An hourly (or quarter-hourly) series is a
partial map from its index to the numeric field the loop reads
(`none` stands for a missing array, record or field: a missing whole
array makes every lookup miss, which the loop treats identically).  The
reserve feed keeps its array shape, since the loop tests the index
against `reserves.length`; an element that is `none` is an undefined
hole.  `reservesPresent` is the truthiness of
`reservesData && reservesData.reserves && reservesData.required`. -/
structure GridData where
  systemLoad : ℕ → Option ℚ
  pvGeneration : ℕ → Option ℚ
  windGeneration : ℕ → Option ℚ
  fullGenerationData : ℕ → Option ℚ
  systemBalance : ℕ → Option ℚ
  reserves : List (Option ℚ)
  required : List (Option ℚ)
  reservesPresent : Bool

/-- One grid cell, generic in the number type: the `scoreData` record
the loop hands to the scorer, built over ℚ and forecast-adjusted over ℝ. -/
structure GridCell (α : Type) where
  hour : ℕ
  dayOfWeek : ℤ
  systemLoad : α
  pvGeneration : α
  windGeneration : α
  baseloadGeneration : α
  powerExchange : α
  availableReserve : Option α
  requiredReserve : Option α
  hasReserveData : Bool
  pvDelta : α
  windDelta : α
  baseloadDelta : α
  demandDelta : α
  pvGradient : α
  windGradient : α

/-- Element lookup in a JS array modelled as a list with holes:
out-of-range and holes are both undefined. -/
def arrGet (l : List (Option ℚ)) (i : ℕ) : Option ℚ := (l.get? i).join

/-- The per-cell computation of `updateRiskAssessmentChart` up to and
including the delta/gradient block (risk-calculator.js lines 2657-2747):
defaults, feed reads, reserve availability, and the same-day deltas and
gradients.  A missing preceding value falls back to the current value
through the `|| current` idiom, which also maps a present zero to the
current value. -/
def buildCellBase (g : GridData) (dayOffset hour : ℕ) (dayOfWeek : ℤ) :
    GridCell ℚ :=
  let systemLoad := getOr (g.systemLoad hour) 20000
  let pvGeneration := getOr (g.pvGeneration hour) 0
  let windGeneration := getOr (g.windGeneration hour) 0
  let baseloadGeneration := getOr (g.fullGenerationData (hour * 4)) 10000
  let powerExchange := getOr (g.systemBalance hour) 0
  let reserveIndex := dayOffset * 24 + hour
  let resOk := g.reservesPresent && decide (reserveIndex < g.reserves.length)
    && (arrGet g.reserves reserveIndex).isSome
    && (arrGet g.required reserveIndex).isSome
  let pvDelta := if 0 < hour then
    pvGeneration - getOr (g.pvGeneration (hour - 1)) pvGeneration else 0
  let windDelta := if 0 < hour then
    windGeneration - getOr (g.windGeneration (hour - 1)) windGeneration else 0
  let baseloadDelta := if 0 < hour then
    baseloadGeneration - getOr (g.fullGenerationData ((hour - 1) * 4)) baseloadGeneration
    else 0
  let demandDelta := if 0 < hour then
    systemLoad - getOr (g.systemLoad (hour - 1)) systemLoad else 0
  { hour := hour
    dayOfWeek := dayOfWeek
    systemLoad := systemLoad
    pvGeneration := pvGeneration
    windGeneration := windGeneration
    baseloadGeneration := baseloadGeneration
    powerExchange := powerExchange
    availableReserve := if resOk then arrGet g.reserves reserveIndex else none
    requiredReserve := if resOk then arrGet g.required reserveIndex else none
    hasReserveData := resOk
    pvDelta := pvDelta
    windDelta := windDelta
    baseloadDelta := baseloadDelta
    demandDelta := demandDelta
    pvGradient := if 1 < hour then
      pvDelta - (getOr (g.pvGeneration (hour - 1)) pvGeneration
        - getOr (g.pvGeneration (hour - 2)) pvGeneration) else 0
    windGradient := if 1 < hour then
      windDelta - (getOr (g.windGeneration (hour - 1)) windGeneration
        - getOr (g.windGeneration (hour - 2)) windGeneration) else 0 }

/-- Cast every numeric field of a cell from ℚ to ℝ. -/
def castCell (c : GridCell ℚ) : GridCell ℝ :=
  { hour := c.hour
    dayOfWeek := c.dayOfWeek
    systemLoad := (c.systemLoad : ℝ)
    pvGeneration := (c.pvGeneration : ℝ)
    windGeneration := (c.windGeneration : ℝ)
    baseloadGeneration := (c.baseloadGeneration : ℝ)
    powerExchange := (c.powerExchange : ℝ)
    availableReserve := c.availableReserve.map (fun q => (q : ℝ))
    requiredReserve := c.requiredReserve.map (fun q => (q : ℝ))
    hasReserveData := c.hasReserveData
    pvDelta := (c.pvDelta : ℝ)
    windDelta := (c.windDelta : ℝ)
    baseloadDelta := (c.baseloadDelta : ℝ)
    demandDelta := (c.demandDelta : ℝ)
    pvGradient := (c.pvGradient : ℝ)
    windGradient := (c.windGradient : ℝ) }

/-- The forecast block of `updateRiskAssessmentChart` (risk-calculator.js
lines 2749-2762): for future days the renewable generation decays by
`Math.exp(-dayOffset * 0.1)`, the system load grows by
`1 + dayOffset * 0.005`, and the volatility factor `1 + dayOffset * 0.2`
scales `pvDelta` and `windDelta` (only those two deltas). -/
noncomputable def applyForecastDecay (dayOffset : ℕ) (c : GridCell ℝ) :
    GridCell ℝ :=
  if 0 < dayOffset then
    { c with
      pvGeneration := c.pvGeneration * Real.exp (-(dayOffset : ℝ) * 0.1)
      windGeneration := c.windGeneration * Real.exp (-(dayOffset : ℝ) * 0.1)
      systemLoad := c.systemLoad * (1 + (dayOffset : ℝ) * 0.005)
      pvDelta := c.pvDelta * (1 + (dayOffset : ℝ) * 0.2)
      windDelta := c.windDelta * (1 + (dayOffset : ℝ) * 0.2) }
  else c

/-- The complete snapshot builder for one grid cell. -/
noncomputable def buildGridCell (g : GridData) (dayOffset hour : ℕ)
    (dayOfWeek : ℤ) : GridCell ℝ :=
  applyForecastDecay dayOffset (castCell (buildCellBase g dayOffset hour dayOfWeek))

end RiskCalculator

/-! ## Helper lemmas -/

namespace RedispatchRiskScorer

theorem calculateReserveMarginScore_nonneg (data : RiskInput) (s : ℚ)
    (h : calculateReserveMarginScore data = some s) : 0 ≤ s := by
  unfold calculateReserveMarginScore at h
  rcases ha : data.availableReserve with _ | a <;> rw [ha] at h <;>
    rcases hr : data.requiredReserve with _ | r <;> rw [hr] at h <;>
    simp only [Option.some.injEq, reduceCtorEq] at h
  subst h
  split_ifs <;> norm_num

theorem calculateRenewableDropScore_nonneg (data : RiskInput) :
    0 ≤ calculateRenewableDropScore data := by
  unfold calculateRenewableDropScore
  dsimp only
  split_ifs <;> norm_num [le_min_iff]

theorem calculateBaseloadSurgeScore_nonneg (data : RiskInput) :
    0 ≤ calculateBaseloadSurgeScore data := by
  unfold calculateBaseloadSurgeScore
  dsimp only
  split_ifs <;> norm_num

theorem calculateDemandSpikeScore_nonneg (data : RiskInput) :
    0 ≤ calculateDemandSpikeScore data := by
  unfold calculateDemandSpikeScore
  dsimp only
  split_ifs <;> norm_num

theorem calculateCriticalHoursScore_nonneg (data : RiskInput) :
    0 ≤ calculateCriticalHoursScore data := by
  unfold calculateCriticalHoursScore
  split_ifs <;> norm_num

theorem calculateSystemImbalanceScore_nonneg (data : RiskInput) :
    0 ≤ calculateSystemImbalanceScore data := by
  unfold calculateSystemImbalanceScore
  dsimp only
  split_ifs <;> norm_num

theorem rawTotalScore_nonneg (data : RiskInput) : 0 ≤ rawTotalScore data := by
  have h2 := calculateRenewableDropScore_nonneg data
  have h3 := calculateBaseloadSurgeScore_nonneg data
  have h4 := calculateDemandSpikeScore_nonneg data
  have h5 := calculateCriticalHoursScore_nonneg data
  have h6 := calculateSystemImbalanceScore_nonneg data
  unfold rawTotalScore
  cases hres : hasReserveData data <;>
    simp only [activeWeights, factorKeys, otherFactorKeys, remainingWeightSum,
      weights, componentScores, ComponentScores.get, hres, if_true, if_false,
      Bool.false_eq_true, List.map_cons, List.map_nil, List.sum_cons,
      List.sum_nil]
  · positivity
  · rcases hr : calculateReserveMarginScore data with _ | s
    · simp only [hr]
      positivity
    · have h1 := calculateReserveMarginScore_nonneg data s hr
      simp only [hr]
      positivity

theorem calculateSynergyBonus_nonneg (scores : ComponentScores) :
    0 ≤ calculateSynergyBonus scores := by
  unfold calculateSynergyBonus
  split_ifs <;> norm_num

theorem totalScore_eq (data : RiskInput) :
    (calculateRiskScore data).totalScore = totalScore data := rfl

end RedispatchRiskScorer

namespace RiskCalculator

theorem buildGridCell_pvDelta (g : GridData) (d h : ℕ) (dow : ℤ) :
    (buildGridCell g d h dow).pvDelta =
      ((buildCellBase g d h dow).pvDelta : ℝ) *
        (if 0 < d then 1 + (d : ℝ) * 0.2 else 1) := by
  unfold buildGridCell applyForecastDecay castCell
  split <;> simp

theorem buildGridCell_windDelta (g : GridData) (d h : ℕ) (dow : ℤ) :
    (buildGridCell g d h dow).windDelta =
      ((buildCellBase g d h dow).windDelta : ℝ) *
        (if 0 < d then 1 + (d : ℝ) * 0.2 else 1) := by
  unfold buildGridCell applyForecastDecay castCell
  split <;> simp

theorem buildGridCell_baseloadDelta (g : GridData) (d h : ℕ) (dow : ℤ) :
    (buildGridCell g d h dow).baseloadDelta =
      ((buildCellBase g d h dow).baseloadDelta : ℝ) := by
  unfold buildGridCell applyForecastDecay castCell
  split <;> rfl

theorem buildGridCell_demandDelta (g : GridData) (d h : ℕ) (dow : ℤ) :
    (buildGridCell g d h dow).demandDelta =
      ((buildCellBase g d h dow).demandDelta : ℝ) := by
  unfold buildGridCell applyForecastDecay castCell
  split <;> rfl

theorem buildGridCell_pvGradient (g : GridData) (d h : ℕ) (dow : ℤ) :
    (buildGridCell g d h dow).pvGradient =
      ((buildCellBase g d h dow).pvGradient : ℝ) := by
  unfold buildGridCell applyForecastDecay castCell
  split <;> rfl

theorem buildGridCell_windGradient (g : GridData) (d h : ℕ) (dow : ℤ) :
    (buildGridCell g d h dow).windGradient =
      ((buildCellBase g d h dow).windGradient : ℝ) := by
  unfold buildGridCell applyForecastDecay castCell
  split <;> rfl

theorem buildCellBase_deltas_hour0 (g : GridData) (d : ℕ) (dow : ℤ) :
    (buildCellBase g d 0 dow).pvDelta = 0 ∧
    (buildCellBase g d 0 dow).windDelta = 0 ∧
    (buildCellBase g d 0 dow).baseloadDelta = 0 ∧
    (buildCellBase g d 0 dow).demandDelta = 0 ∧
    (buildCellBase g d 0 dow).pvGradient = 0 ∧
    (buildCellBase g d 0 dow).windGradient = 0 := by
  unfold buildCellBase
  norm_num

theorem buildGridCell_scaled (g : GridData) (d h : ℕ) (dow : ℤ)
    (hd : 0 < d) :
    (buildGridCell g d h dow).pvGeneration =
      ((buildCellBase g d h dow).pvGeneration : ℝ) *
        Real.exp (-(d : ℝ) * 0.1) ∧
    (buildGridCell g d h dow).windGeneration =
      ((buildCellBase g d h dow).windGeneration : ℝ) *
        Real.exp (-(d : ℝ) * 0.1) ∧
    (buildGridCell g d h dow).systemLoad =
      ((buildCellBase g d h dow).systemLoad : ℝ) * (1 + (d : ℝ) * 0.005) := by
  unfold buildGridCell applyForecastDecay castCell
  rw [if_pos hd]
  exact ⟨rfl, rfl, rfl⟩

theorem buildGridCell_dayOffset0 (g : GridData) (h : ℕ) (dow : ℤ) :
    buildGridCell g 0 h dow = castCell (buildCellBase g 0 h dow) := by
  unfold buildGridCell applyForecastDecay
  norm_num

theorem buildCellBase_gradients_lt2 (g : GridData) (d h : ℕ) (dow : ℤ)
    (hlt : h < 2) :
    (buildCellBase g d h dow).pvGradient = 0 ∧
    (buildCellBase g d h dow).windGradient = 0 := by
  have hn : ¬1 < h := by omega
  unfold buildCellBase
  simp [hn]

theorem buildCellBase_pvDelta_missing (g : GridData) (d h : ℕ) (dow : ℤ)
    (hm : g.pvGeneration (h - 1) = none) :
    (buildCellBase g d h dow).pvDelta = 0 := by
  unfold buildCellBase
  simp [hm]

theorem buildCellBase_windDelta_missing (g : GridData) (d h : ℕ) (dow : ℤ)
    (hm : g.windGeneration (h - 1) = none) :
    (buildCellBase g d h dow).windDelta = 0 := by
  unfold buildCellBase
  simp [hm]

theorem buildCellBase_baseloadDelta_missing (g : GridData) (d h : ℕ) (dow : ℤ)
    (hm : g.fullGenerationData ((h - 1) * 4) = none) :
    (buildCellBase g d h dow).baseloadDelta = 0 := by
  unfold buildCellBase
  simp [hm]

theorem buildCellBase_demandDelta_missing (g : GridData) (d h : ℕ) (dow : ℤ)
    (hm : g.systemLoad (h - 1) = none) :
    (buildCellBase g d h dow).demandDelta = 0 := by
  unfold buildCellBase
  simp [hm]

end RiskCalculator

/-! ## Claims -/

open RedispatchRiskScorer
open RiskCalculator

/-- Concrete input for the C1 witness: raw weighted sum exactly 95 with
five critical sub-scores. -/
def c1exInput : RiskInput :=
  { hour := 18, dayOfWeek := 3, systemLoad := some 20000,
    availableReserve := some 200, requiredReserve := some 1200,
    pvDelta := some (-2500), baseloadDelta := some 1600,
    demandDelta := some 1100, powerExchange := some 0 }

/-- C1: for every input the total score is an integer (by the type of
`totalScore`) between 0 and 100, and when the raw weighted sum is 95
with at least 3 critical sub-scores the synergy bonus (15) is clamped,
giving 100 and not 110. -/
theorem claim_C1_totalScore_bounds (data : RiskInput) :
    0 ≤ (calculateRiskScore data).totalScore ∧
    (calculateRiskScore data).totalScore ≤ 100 ∧
    (rawTotalScore data = 95 → 3 ≤ criticalFactorCount (componentScores data) →
      (calculateRiskScore data).totalScore = 100) := by
  rw [totalScore_eq]
  unfold totalScore
  refine ⟨le_min (by norm_num) ?_, min_le_left _ _, ?_⟩
  · rw [jsRound, Int.le_floor]
    have h1 := rawTotalScore_nonneg data
    have h2 := calculateSynergyBonus_nonneg (componentScores data)
    push_cast
    linarith
  · intro h95 hcrit
    have hsyn : calculateSynergyBonus (componentScores data) = 15 := by
      unfold calculateSynergyBonus
      rw [if_pos hcrit]
    rw [h95, hsyn]
    norm_num [jsRound]

/-- C1 witness: the concrete boundary input. -/
theorem claim_C1_totalScore_bounds_witness :
    rawTotalScore c1exInput = 95 ∧
    3 ≤ criticalFactorCount (componentScores c1exInput) ∧
    (calculateRiskScore c1exInput).totalScore = 100 := by
  have hres : hasReserveData c1exInput = true := rfl
  have hcomp : componentScores c1exInput =
      { reserveMargin := some 100, renewableDropRate := 100,
        baseloadSurge := 100, demandSpike := 100, criticalHours := 100,
        systemImbalance := 0 } := by
    unfold componentScores
    rw [hres]
    norm_num [c1exInput, calculateReserveMarginScore,
      calculateRenewableDropScore, calculateBaseloadSurgeScore,
      calculateDemandSpikeScore, calculateCriticalHoursScore,
      calculateSystemImbalanceScore, jsNum, getOr]
  have h95 : rawTotalScore c1exInput = 95 := by
    unfold rawTotalScore
    rw [hres, hcomp]
    norm_num [activeWeights, factorKeys, weights, ComponentScores.get]
  have hcrit : 3 ≤ criticalFactorCount (componentScores c1exInput) := by
    rw [hcomp]
    norm_num [criticalFactorCount, ComponentScores.values, List.filter]
  exact ⟨h95, hcrit, (claim_C1_totalScore_bounds c1exInput).2.2 h95 hcrit⟩

/-- C2: without reserve data the reserveMargin component is null, the
data quality is partial (and partial exactly then), every active weight
is a non-reserve weight redistributed to w + w / 65 * 35, the five
redistributed weights sum to 100 exactly, and the weighted sum ranges
over exactly those five entries. -/
theorem claim_C2_weight_redistribution (data : RiskInput)
    (h : hasReserveData data = false) :
    (calculateRiskScore data).components.reserveMargin = none ∧
    (calculateRiskScore data).dataQuality = "partial" ∧
    (∀ p ∈ activeWeights false, p.1 ≠ FactorKey.reserveMargin ∧
      p.2 = weights p.1 + weights p.1 / 65 * 35) ∧
    ((activeWeights false).map Prod.snd).sum = 100 ∧
    rawTotalScore data = ((activeWeights false).map (fun p =>
      match (componentScores data).get p.1 with
      | some s => s * p.2 / 100
      | none => 0)).sum ∧
    (∀ d : RiskInput, (calculateRiskScore d).dataQuality =
      if hasReserveData d then "complete" else "partial") := by
  have hcomp : (calculateRiskScore data).components = componentScores data := rfl
  have hq : (calculateRiskScore data).dataQuality =
      if hasReserveData data then "complete" else "partial" := rfl
  refine ⟨?_, ?_, ?_, ?_, ?_, ?_⟩
  · rw [hcomp]
    unfold componentScores
    rw [h]
    simp
  · rw [hq, h]
    simp
  · intro p hp
    simp only [activeWeights, otherFactorKeys, remainingWeightSum, weights,
      if_false, Bool.false_eq_true, List.map_cons, List.map_nil, List.sum_cons,
      List.sum_nil, List.mem_cons, List.not_mem_nil, or_false] at hp ⊢
    rcases hp with h1 | h1 | h1 | h1 | h1 <;> subst h1 <;>
      exact ⟨by simp [weights], by norm_num [weights]⟩
  · norm_num [activeWeights, otherFactorKeys, remainingWeightSum, weights]
  · unfold rawTotalScore
    rw [h]
  · intro d
    rfl

/-- Concrete no-reserve input for the C2 witness. -/
def c2exInput : RiskInput := { hour := 12, dayOfWeek := 2, pvDelta := some (-700) }

/-- C2 witness: a concrete input without reserve data. -/
theorem claim_C2_weight_redistribution_witness :
    hasReserveData c2exInput = false ∧
    (calculateRiskScore c2exInput).components.reserveMargin = none ∧
    (calculateRiskScore c2exInput).dataQuality = "partial" ∧
    ((activeWeights false).map Prod.snd).sum = 100 := by
  have h : hasReserveData c2exInput = false := rfl
  obtain ⟨h1, h2, _, h4, _, _⟩ := claim_C2_weight_redistribution c2exInput h
  exact ⟨h, h1, h2, h4⟩

/-- The eight non-reserve numeric fields of a RiskInput that the scorer
reads through a falsy-propagating fallback. -/
inductive NumField
  | pvDelta
  | windDelta
  | baseloadDelta
  | demandDelta
  | pvGradient
  | windGradient
  | powerExchange
  | systemLoad
deriving DecidableEq

/-- Overwrite one numeric field of a RiskInput. -/
def setField (f : NumField) (v : Option ℚ) (data : RiskInput) : RiskInput :=
  match f with
  | .pvDelta => { data with pvDelta := v }
  | .windDelta => { data with windDelta := v }
  | .baseloadDelta => { data with baseloadDelta := v }
  | .demandDelta => { data with demandDelta := v }
  | .pvGradient => { data with pvGradient := v }
  | .windGradient => { data with windGradient := v }
  | .powerExchange => { data with powerExchange := v }
  | .systemLoad => { data with systemLoad := v }

/-- The scorer reads its inputs only through the listed projections, so
two inputs agreeing on them score identically. -/
theorem calculateRiskScore_congr (d1 d2 : RiskInput)
    (hh : d1.hour = d2.hour) (hd : d1.dayOfWeek = d2.dayOfWeek)
    (hf : d1.hasReserveData = d2.hasReserveData)
    (ha : d1.availableReserve = d2.availableReserve)
    (hr : d1.requiredReserve = d2.requiredReserve)
    (h1 : jsNum d1.pvDelta = jsNum d2.pvDelta)
    (h2 : jsNum d1.windDelta = jsNum d2.windDelta)
    (h3 : jsNum d1.baseloadDelta = jsNum d2.baseloadDelta)
    (h4 : jsNum d1.demandDelta = jsNum d2.demandDelta)
    (h5 : jsNum d1.pvGradient = jsNum d2.pvGradient)
    (h6 : jsNum d1.windGradient = jsNum d2.windGradient)
    (h7 : jsNum d1.powerExchange = jsNum d2.powerExchange)
    (h8 : getOr d1.systemLoad 20000 = getOr d2.systemLoad 20000) :
    calculateRiskScore d1 = calculateRiskScore d2 := by
  unfold calculateRiskScore totalScore rawTotalScore componentScores
    hasReserveData calculateReserveMarginScore calculateRenewableDropScore
    calculateBaseloadSurgeScore calculateDemandSpikeScore
    calculateCriticalHoursScore calculateSystemImbalanceScore
    getRecommendations threatLevel getDetailedFactors reserveMarginFactors
    renewableDropFactors baseloadSurgeFactors demandSpikeFactors
    criticalHoursFactors
  rw [hh, hd, hf, ha, hr, h1, h2, h3, h4, h5, h6, h7, h8]

/-- C3: a missing non-reserve numeric field scores exactly like the
same field set to 0 (the getOr fallback maps both a missing and a zero
field to the same effective value), and — the embedding being a total
function — the scorer returns a full result on every such input. -/
theorem claim_C3_missing_fields_default (f : NumField) (data : RiskInput) :
    calculateRiskScore (setField f none data) =
      calculateRiskScore (setField f (some 0) data) := by
  cases f <;>
    exact calculateRiskScore_congr _ _ rfl rfl rfl rfl rfl
      (by simp [setField, jsNum]) (by simp [setField, jsNum])
      (by simp [setField, jsNum]) (by simp [setField, jsNum])
      (by simp [setField, jsNum]) (by simp [setField, jsNum])
      (by simp [setField, jsNum]) (by simp [setField, getOr])

/-- The risk-level map exactly as the spec words it: fixed breakpoints
at 25, 50 and 75 on the total score. -/
def specRiskLevel (t : ℤ) : String :=
  if t ≤ 25 then "low"
  else if t ≤ 50 then "medium"
  else if t ≤ 75 then "high"
  else "critical"

/-- C8: the risk level of every result is the pure breakpoint function
of its total score, and only the four taxonomy strings ever appear. -/
theorem claim_C8_riskLevel_pure (data : RiskInput) :
    (calculateRiskScore data).riskLevel =
      specRiskLevel (calculateRiskScore data).totalScore ∧
    ((calculateRiskScore data).riskLevel = "low" ∨
     (calculateRiskScore data).riskLevel = "medium" ∨
     (calculateRiskScore data).riskLevel = "high" ∨
     (calculateRiskScore data).riskLevel = "critical") := by
  have h : (calculateRiskScore data).riskLevel = getRiskLevel (totalScore data) := rfl
  rw [h, totalScore_eq]
  unfold getRiskLevel specRiskLevel
  split_ifs <;> simp

/-- The critical evening scenario of the spec (example 1). -/
def c5Input : RiskInput :=
  { hour := 18, dayOfWeek := 3, systemLoad := some 22000,
    pvGeneration := some 500, windGeneration := some 300,
    baseloadGeneration := some 15000,
    availableReserve := some 200, requiredReserve := some 1200,
    pvDelta := some (-1800), windDelta := some (-300),
    baseloadDelta := some 1600, demandDelta := some 900,
    powerExchange := some 500 }

/-- C5: on the critical evening scenario the scorer reports reserve
data present, sub-scores 100 for reserve margin, renewable drop,
baseload surge and critical hours, total score 100 and risk level
critical. -/
theorem claim_C5_critical_scenario :
    (calculateRiskScore c5Input).hasReserveData = true ∧
    (calculateRiskScore c5Input).components.reserveMargin = some 100 ∧
    (calculateRiskScore c5Input).components.renewableDropRate = 100 ∧
    (calculateRiskScore c5Input).components.baseloadSurge = 100 ∧
    (calculateRiskScore c5Input).components.criticalHours = 100 ∧
    (calculateRiskScore c5Input).totalScore = 100 ∧
    (calculateRiskScore c5Input).riskLevel = "critical" := by
  have hres : hasReserveData c5Input = true := rfl
  have hcomp : componentScores c5Input =
      { reserveMargin := some 100, renewableDropRate := 100,
        baseloadSurge := 100, demandSpike := 60, criticalHours := 100,
        systemImbalance := 0 } := by
    unfold componentScores
    rw [hres]
    norm_num [c5Input, calculateReserveMarginScore,
      calculateRenewableDropScore, calculateBaseloadSurgeScore,
      calculateDemandSpikeScore, calculateCriticalHoursScore,
      calculateSystemImbalanceScore, jsNum, getOr]
  have hraw : rawTotalScore c5Input = 91 := by
    unfold rawTotalScore
    rw [hres, hcomp]
    norm_num [activeWeights, factorKeys, weights, ComponentScores.get]
  have hsyn : calculateSynergyBonus (componentScores c5Input) = 15 := by
    rw [hcomp]
    have hc : criticalFactorCount
        { reserveMargin := some 100, renewableDropRate := 100,
          baseloadSurge := 100, demandSpike := 60, criticalHours := 100,
          systemImbalance := (0 : ℚ) } = 4 := by
      norm_num [criticalFactorCount, ComponentScores.values, List.filter_cons]
    unfold calculateSynergyBonus
    rw [hc]
    norm_num
  have htot : (calculateRiskScore c5Input).totalScore = 100 := by
    rw [totalScore_eq]
    unfold totalScore
    rw [hraw, hsyn]
    norm_num [jsRound]
  refine ⟨hres, ?_, ?_, ?_, ?_, htot, ?_⟩
  · show (componentScores c5Input).reserveMargin = some 100
    rw [hcomp]
  · show (componentScores c5Input).renewableDropRate = 100
    rw [hcomp]
  · show (componentScores c5Input).baseloadSurge = 100
    rw [hcomp]
  · show (componentScores c5Input).criticalHours = 100
    rw [hcomp]
  · show getRiskLevel (totalScore c5Input) = "critical"
    rw [← totalScore_eq, htot]
    norm_num [getRiskLevel]

/-- The quiet weekend scenario of the spec (example 3): weekend 03:00,
all deltas and gradients zero, no reserve data. -/
def c6Input : RiskInput :=
  { hour := 3, dayOfWeek := 0, pvDelta := some 0, windDelta := some 0,
    baseloadDelta := some 0, demandDelta := some 0, pvGradient := some 0,
    windGradient := some 0 }

/-- Sub-scores, total and recommendations of the quiet weekend
scenario, fully evaluated (shared by the C6 theorem and its
counterexample). -/
theorem c6_eval :
    componentScores c6Input =
      { reserveMargin := none, renewableDropRate := 0, baseloadSurge := 0,
        demandSpike := 0, criticalHours := 0, systemImbalance := 0 } ∧
    (calculateRiskScore c6Input).totalScore = 0 ∧
    (calculateRiskScore c6Input).riskLevel = "low" ∧
    (calculateRiskScore c6Input).recommendations =
      [msgNoReserveData, msgLimitedAnalysis] := by
  have hres : hasReserveData c6Input = false := rfl
  have hcomp : componentScores c6Input =
      { reserveMargin := none, renewableDropRate := 0, baseloadSurge := 0,
        demandSpike := 0, criticalHours := 0, systemImbalance := 0 } := by
    unfold componentScores
    rw [hres]
    norm_num [c6Input, calculateRenewableDropScore,
      calculateBaseloadSurgeScore, calculateDemandSpikeScore,
      calculateCriticalHoursScore, calculateSystemImbalanceScore, jsNum, getOr]
  have hraw : rawTotalScore c6Input = 0 := by
    unfold rawTotalScore
    rw [hres, hcomp]
    norm_num [activeWeights, otherFactorKeys, remainingWeightSum, weights,
      ComponentScores.get]
  have hsyn : calculateSynergyBonus (componentScores c6Input) = 0 := by
    rw [hcomp]
    norm_num [calculateSynergyBonus, criticalFactorCount, highFactorCount,
      ComponentScores.values, List.filter_cons]
  have htot : (calculateRiskScore c6Input).totalScore = 0 := by
    rw [totalScore_eq]
    unfold totalScore
    rw [hraw, hsyn]
    norm_num [jsRound]
  refine ⟨hcomp, htot, ?_, ?_⟩
  · show getRiskLevel (totalScore c6Input) = "low"
    rw [← totalScore_eq, htot]
    norm_num [getRiskLevel]
  · show getRecommendations (componentScores c6Input) c6Input
      (hasReserveData c6Input) = [msgNoReserveData, msgLimitedAnalysis]
    rw [hres, hcomp]
    norm_num [getRecommendations, threatLevel, weights, List.headD]

/-- C6 counterexample: on the quiet weekend scenario the
stable-situation advisory is not among the recommendations (the code
appends the limited-analysis line instead, so the list is not the
stable advisory plus the no-reserve-data line). -/
theorem claim_C6_counterexample :
    msgStable ∉ (calculateRiskScore c6Input).recommendations := by
  rw [c6_eval.2.2.2]
  decide

/-- C6 (amended): on the quiet weekend scenario every sub-score is 0,
the total score is 0, the risk level is low, and the recommendations
are the no-reserve-data info line followed by the limited-analysis
advisory (not the stable-situation advisory, which the code only emits
when the list would otherwise be empty, impossible without reserve
data). -/
theorem claim_C6_weekend_scenario :
    componentScores c6Input =
      { reserveMargin := none, renewableDropRate := 0, baseloadSurge := 0,
        demandSpike := 0, criticalHours := 0, systemImbalance := 0 } ∧
    (calculateRiskScore c6Input).totalScore = 0 ∧
    (calculateRiskScore c6Input).riskLevel = "low" ∧
    (calculateRiskScore c6Input).recommendations =
      [msgNoReserveData, msgLimitedAnalysis] :=
  c6_eval

theorem mem_getDetailedFactors_iff (scores : ComponentScores)
    (data : RiskInput) (hasRes : Bool) (f : FactorEntry) :
    f ∈ getDetailedFactors scores data hasRes ↔
      f ∈ reserveMarginFactors scores data hasRes
        ++ renewableDropFactors scores data hasRes
        ++ baseloadSurgeFactors scores data hasRes
        ++ demandSpikeFactors scores hasRes
        ++ criticalHoursFactors scores data hasRes :=
  (List.perm_insertionSort factorLe _).mem_iff

theorem reserveMarginFactors_info_impact (scores : ComponentScores)
    (data : RiskInput) (hasRes : Bool) :
    ∀ f ∈ reserveMarginFactors scores data hasRes,
      f.info = true → f.impact = 0 := by
  intro f hf
  unfold reserveMarginFactors at hf
  split at hf
  · split at hf
    · split at hf
      · simp only [List.mem_singleton] at hf
        subst hf
        simp
      · simp at hf
    · simp at hf
  · simp only [List.mem_singleton] at hf
    subst hf
    intro _
    rfl

theorem renewableDropFactors_not_info (scores : ComponentScores)
    (data : RiskInput) (hasRes : Bool) :
    ∀ f ∈ renewableDropFactors scores data hasRes, f.info = false := by
  intro f hf
  unfold renewableDropFactors at hf
  split at hf
  · simp only [List.mem_singleton] at hf
    subst hf
    rfl
  · simp at hf

theorem baseloadSurgeFactors_not_info (scores : ComponentScores)
    (data : RiskInput) (hasRes : Bool) :
    ∀ f ∈ baseloadSurgeFactors scores data hasRes, f.info = false := by
  intro f hf
  unfold baseloadSurgeFactors at hf
  split at hf
  · simp only [List.mem_singleton] at hf
    subst hf
    rfl
  · simp at hf

theorem demandSpikeFactors_not_info (scores : ComponentScores)
    (hasRes : Bool) :
    ∀ f ∈ demandSpikeFactors scores hasRes, f.info = false := by
  intro f hf
  unfold demandSpikeFactors at hf
  split at hf
  · simp only [List.mem_singleton] at hf
    subst hf
    rfl
  · simp at hf

theorem criticalHoursFactors_not_info (scores : ComponentScores)
    (data : RiskInput) (hasRes : Bool) :
    ∀ f ∈ criticalHoursFactors scores data hasRes, f.info = false := by
  intro f hf
  unfold criticalHoursFactors at hf
  split at hf
  · simp only [List.mem_singleton] at hf
    subst hf
    rfl
  · simp at hf

theorem reserveMarginFactors_pos (scores : ComponentScores)
    (data : RiskInput) (s : ℚ) (hsm : scores.reserveMargin = some s)
    (hspos : 0 < s) :
    ∃ f ∈ reserveMarginFactors scores data true, f.icon = "activity" ∧
      f.impact = jsRound (s * weights .reserveMargin / 100) := by
  unfold reserveMarginFactors
  rw [if_pos rfl, hsm]
  dsimp only
  rw [if_pos hspos]
  exact ⟨_, List.mem_singleton.mpr rfl, rfl, rfl⟩

theorem renewableDropFactors_pos (scores : ComponentScores)
    (data : RiskInput) (hasRes : Bool)
    (h : 0 < scores.renewableDropRate) :
    ∃ f ∈ renewableDropFactors scores data hasRes,
      f.icon = "trending-down" ∧
      f.impact = jsRound (scores.renewableDropRate *
        (if hasRes then weights .renewableDropRate else 38) / 100) := by
  unfold renewableDropFactors
  rw [if_pos h]
  exact ⟨_, List.mem_singleton.mpr rfl, rfl, rfl⟩

theorem baseloadSurgeFactors_pos (scores : ComponentScores)
    (data : RiskInput) (hasRes : Bool) (h : 0 < scores.baseloadSurge) :
    ∃ f ∈ baseloadSurgeFactors scores data hasRes, f.icon = "zap" ∧
      f.impact = jsRound (scores.baseloadSurge *
        (if hasRes then weights .baseloadSurge else 23) / 100) := by
  unfold baseloadSurgeFactors
  rw [if_pos h]
  exact ⟨_, List.mem_singleton.mpr rfl, rfl, rfl⟩

theorem demandSpikeFactors_pos (scores : ComponentScores) (hasRes : Bool)
    (h : 0 < scores.demandSpike) :
    ∃ f ∈ demandSpikeFactors scores hasRes, f.icon = "trending-up" ∧
      f.impact = jsRound (scores.demandSpike *
        (if hasRes then weights .demandSpike else 15) / 100) := by
  unfold demandSpikeFactors
  rw [if_pos h]
  exact ⟨_, List.mem_singleton.mpr rfl, rfl, rfl⟩

theorem criticalHoursFactors_pos (scores : ComponentScores)
    (data : RiskInput) (hasRes : Bool) (h : 0 < scores.criticalHours) :
    ∃ f ∈ criticalHoursFactors scores data hasRes, f.icon = "clock" ∧
      f.impact = jsRound (scores.criticalHours *
        (if hasRes then weights .criticalHours else 15) / 100) := by
  unfold criticalHoursFactors
  rw [if_pos h]
  exact ⟨_, List.mem_singleton.mpr rfl, rfl, rfl⟩

/-- All the descriptor properties of the factor list, generic in the
scores, input and reserve flag. -/
theorem getDetailedFactors_spec (scores : ComponentScores)
    (data : RiskInput) (hasRes : Bool) :
    List.Pairwise (fun a b => (a.info = true → b.info = true) ∧
      (a.info = false → b.info = false → b.impact ≤ a.impact))
      (getDetailedFactors scores data hasRes) ∧
    (∀ f ∈ getDetailedFactors scores data hasRes,
      f.info = true → f.impact = 0) ∧
    (∀ s : ℚ, hasRes = true → scores.reserveMargin = some s → 0 < s →
      ∃ f ∈ getDetailedFactors scores data hasRes, f.icon = "activity" ∧
        f.impact = jsRound (s * weights .reserveMargin / 100)) ∧
    (0 < scores.renewableDropRate →
      ∃ f ∈ getDetailedFactors scores data hasRes,
        f.icon = "trending-down" ∧
        f.impact = jsRound (scores.renewableDropRate *
          (if hasRes then weights .renewableDropRate else 38) / 100)) ∧
    (0 < scores.baseloadSurge →
      ∃ f ∈ getDetailedFactors scores data hasRes, f.icon = "zap" ∧
        f.impact = jsRound (scores.baseloadSurge *
          (if hasRes then weights .baseloadSurge else 23) / 100)) ∧
    (0 < scores.demandSpike →
      ∃ f ∈ getDetailedFactors scores data hasRes, f.icon = "trending-up" ∧
        f.impact = jsRound (scores.demandSpike *
          (if hasRes then weights .demandSpike else 15) / 100)) ∧
    (0 < scores.criticalHours →
      ∃ f ∈ getDetailedFactors scores data hasRes, f.icon = "clock" ∧
        f.impact = jsRound (scores.criticalHours *
          (if hasRes then weights .criticalHours else 15) / 100)) := by
  have hmem : ∀ f : FactorEntry,
      f ∈ renewableDropFactors scores data hasRes ∨
      f ∈ baseloadSurgeFactors scores data hasRes ∨
      f ∈ demandSpikeFactors scores hasRes ∨
      f ∈ criticalHoursFactors scores data hasRes ∨
      f ∈ reserveMarginFactors scores data hasRes →
      f ∈ getDetailedFactors scores data hasRes := by
    intro f hf
    rw [mem_getDetailedFactors_iff]
    simp only [List.mem_append]
    tauto
  refine ⟨?_, ?_, ?_, ?_, ?_, ?_, ?_⟩
  · refine (List.sorted_insertionSort factorLe _).imp ?_
    intro a b hab
    unfold factorLe at hab
    constructor
    · intro ha
      rcases hab with h | ⟨hfa, _⟩
      · exact h
      · rw [ha] at hfa
        cases hfa
    · intro _ hfb
      rcases hab with h | ⟨_, hle⟩
      · rw [hfb] at h
        cases h
      · exact hle
  · intro f hf hinfo
    rw [mem_getDetailedFactors_iff] at hf
    simp only [List.mem_append] at hf
    rcases hf with ((((hf | hf) | hf) | hf) | hf)
    · exact reserveMarginFactors_info_impact scores data hasRes f hf hinfo
    · rw [renewableDropFactors_not_info scores data hasRes f hf] at hinfo
      cases hinfo
    · rw [baseloadSurgeFactors_not_info scores data hasRes f hf] at hinfo
      cases hinfo
    · rw [demandSpikeFactors_not_info scores hasRes f hf] at hinfo
      cases hinfo
    · rw [criticalHoursFactors_not_info scores data hasRes f hf] at hinfo
      cases hinfo
  · intro s hres hsm hspos
    subst hres
    obtain ⟨f, hf, hp⟩ := reserveMarginFactors_pos scores data s hsm hspos
    exact ⟨f, hmem f (Or.inr (Or.inr (Or.inr (Or.inr hf)))), hp⟩
  · intro h
    obtain ⟨f, hf, hp⟩ := renewableDropFactors_pos scores data hasRes h
    exact ⟨f, hmem f (Or.inl hf), hp⟩
  · intro h
    obtain ⟨f, hf, hp⟩ := baseloadSurgeFactors_pos scores data hasRes h
    exact ⟨f, hmem f (Or.inr (Or.inl hf)), hp⟩
  · intro h
    obtain ⟨f, hf, hp⟩ := demandSpikeFactors_pos scores hasRes h
    exact ⟨f, hmem f (Or.inr (Or.inr (Or.inl hf))), hp⟩
  · intro h
    obtain ⟨f, hf, hp⟩ := criticalHoursFactors_pos scores data hasRes h
    exact ⟨f, hmem f (Or.inr (Or.inr (Or.inr (Or.inl hf)))), hp⟩

/-- Input with a non-zero systemImbalance sub-score and nothing else. -/
def c7aInput : RiskInput := { hour := 3, dayOfWeek := 0, powerExchange := some 1500 }

/-- Input with renewable sub-score 80 and no reserve data. -/
def c7bInput : RiskInput := { hour := 3, dayOfWeek := 0, pvDelta := some (-1600) }

/-- C7 counterexample: a systemImbalance sub-score of 30 yields no
descriptor at all (only the zero-impact info entry appears), and with
reserve data absent the renewable descriptor carries impact
round(80 * 38 / 100) = 30 computed from the hardcoded weight 38, while
the redistributed effective weight of the claim gives
round(80 * (25 + 25 / 65 * 35) / 100) = 31. -/
theorem claim_C7_counterexample :
    (componentScores c7aInput).systemImbalance = 30 ∧
    (calculateRiskScore c7aInput).factors =
      [{ factor := "Brak danych o rezerwach", impact := 0,
         icon := "help-circle", info := true }] ∧
    (componentScores c7bInput).renewableDropRate = 80 ∧
    (calculateRiskScore c7bInput).factors =
      [{ factor := "Gwałtowny spadek OZE!", impact := 30,
         icon := "trending-down", critical := true },
       { factor := "Brak danych o rezerwach", impact := 0,
         icon := "help-circle", info := true }] ∧
    jsRound ((80 : ℚ) * (weights .renewableDropRate +
      weights .renewableDropRate / 65 * 35) / 100) = 31 := by
  have hresa : hasReserveData c7aInput = false := rfl
  have hcompa : componentScores c7aInput =
      { reserveMargin := none, renewableDropRate := 0, baseloadSurge := 0,
        demandSpike := 0, criticalHours := 0, systemImbalance := 30 } := by
    unfold componentScores
    rw [hresa]
    norm_num [c7aInput, calculateRenewableDropScore,
      calculateBaseloadSurgeScore, calculateDemandSpikeScore,
      calculateCriticalHoursScore, calculateSystemImbalanceScore, jsNum, getOr]
  have hresb : hasReserveData c7bInput = false := rfl
  have hcompb : componentScores c7bInput =
      { reserveMargin := none, renewableDropRate := 80, baseloadSurge := 0,
        demandSpike := 0, criticalHours := 0, systemImbalance := 0 } := by
    unfold componentScores
    rw [hresb]
    norm_num [c7bInput, calculateRenewableDropScore,
      calculateBaseloadSurgeScore, calculateDemandSpikeScore,
      calculateCriticalHoursScore, calculateSystemImbalanceScore, jsNum, getOr]
  refine ⟨by rw [hcompa], ?_, by rw [hcompb], ?_, ?_⟩
  · show getDetailedFactors (componentScores c7aInput) c7aInput
      (hasReserveData c7aInput) = _
    rw [hresa, hcompa]
    norm_num [getDetailedFactors, reserveMarginFactors, renewableDropFactors,
      baseloadSurgeFactors, demandSpikeFactors, criticalHoursFactors,
      List.insertionSort, List.orderedInsert]
  · show getDetailedFactors (componentScores c7bInput) c7bInput
      (hasReserveData c7bInput) = _
    rw [hresb, hcompb]
    norm_num [getDetailedFactors, reserveMarginFactors, renewableDropFactors,
      baseloadSurgeFactors, demandSpikeFactors, criticalHoursFactors,
      List.insertionSort, List.orderedInsert, factorLe, c7bInput, jsNum, getOr,
      jsRound]
  · norm_num [jsRound, weights]

/-- C7 (amended): in every result the factor list is ordered with
informational entries after all others and the rest by descending
impact; informational entries carry impact 0; each of the five factor
kinds other than systemImbalance with a positive sub-score emits a
descriptor whose impact is round(subscore * w / 100) for the weight w
the code actually uses — the nominal weight when reserve data is
present, the hardcoded approximations 38/23/15/15 otherwise (the
reserve entry always uses 35); the systemImbalance sub-score emits no
descriptor (see the counterexample). -/
theorem claim_C7_factor_descriptors (data : RiskInput) :
    List.Pairwise (fun a b => (a.info = true → b.info = true) ∧
      (a.info = false → b.info = false → b.impact ≤ a.impact))
      (calculateRiskScore data).factors ∧
    (∀ f ∈ (calculateRiskScore data).factors, f.info = true → f.impact = 0) ∧
    (∀ s : ℚ, hasReserveData data = true →
      (componentScores data).reserveMargin = some s → 0 < s →
      ∃ f ∈ (calculateRiskScore data).factors, f.icon = "activity" ∧
        f.impact = jsRound (s * weights .reserveMargin / 100)) ∧
    (0 < (componentScores data).renewableDropRate →
      ∃ f ∈ (calculateRiskScore data).factors, f.icon = "trending-down" ∧
        f.impact = jsRound ((componentScores data).renewableDropRate *
          (if hasReserveData data then weights .renewableDropRate else 38) / 100)) ∧
    (0 < (componentScores data).baseloadSurge →
      ∃ f ∈ (calculateRiskScore data).factors, f.icon = "zap" ∧
        f.impact = jsRound ((componentScores data).baseloadSurge *
          (if hasReserveData data then weights .baseloadSurge else 23) / 100)) ∧
    (0 < (componentScores data).demandSpike →
      ∃ f ∈ (calculateRiskScore data).factors, f.icon = "trending-up" ∧
        f.impact = jsRound ((componentScores data).demandSpike *
          (if hasReserveData data then weights .demandSpike else 15) / 100)) ∧
    (0 < (componentScores data).criticalHours →
      ∃ f ∈ (calculateRiskScore data).factors, f.icon = "clock" ∧
        f.impact = jsRound ((componentScores data).criticalHours *
          (if hasReserveData data then weights .criticalHours else 15) / 100)) :=
  getDetailedFactors_spec (componentScores data) data (hasReserveData data)

/-- Taylor bounds at order 5 pin Real.exp 0.3 between 1.34981 and
1.34987. -/
theorem exp_point3_bounds :
    (1.34981 : ℝ) ≤ Real.exp 0.3 ∧ Real.exp 0.3 ≤ 1.34987 := by
  have hb := @Real.exp_bound (0.3 : ℝ)
    (by rw [abs_le]; constructor <;> norm_num) 5 (by norm_num)
  rw [abs_le] at hb
  obtain ⟨h1, h2⟩ := hb
  have hs : ∑ m ∈ Finset.range 5, (0.3 : ℝ) ^ m / m.factorial = 1.3498375 := by
    rw [Finset.sum_range_succ, Finset.sum_range_succ, Finset.sum_range_succ,
      Finset.sum_range_succ, Finset.sum_range_succ, Finset.sum_range_zero]
    norm_num [Nat.factorial]
  have ha : |(0.3 : ℝ)| = 0.3 := by
    rw [abs_of_pos]
    norm_num
  rw [hs, ha] at h1 h2
  norm_num [Nat.factorial] at h1 h2
  constructor <;> linarith

/-- The decayed PV value 1000 * exp(-0.3) is within one half of 740.8. -/
theorem exp_neg_point3_approx :
    |(1000 : ℝ) * Real.exp (-(0.3 : ℝ)) - 740.8| < 1/2 := by
  obtain ⟨hlo, hhi⟩ := exp_point3_bounds
  have hpos : (0 : ℝ) < Real.exp 0.3 := Real.exp_pos _
  have hz : (0 : ℝ) < (Real.exp 0.3)⁻¹ := inv_pos.mpr hpos
  have hinv : Real.exp 0.3 * (Real.exp 0.3)⁻¹ = 1 := mul_inv_cancel₀ (ne_of_gt hpos)
  rw [Real.exp_neg, abs_lt]
  constructor <;> nlinarith [hinv, hlo, hhi, hpos, hz]

/-- Example feed for the C4 decay check: base pvGeneration 1000 at
hour 12, everything else absent. -/
def pvDecayExampleGrid : GridData :=
  { systemLoad := fun _ => none
    pvGeneration := fun h => if h = 12 then some 1000 else none
    windGeneration := fun _ => none
    fullGenerationData := fun _ => none
    systemBalance := fun _ => none
    reserves := []
    required := []
    reservesPresent := false }

/-- Example feed for the C4 counterexample: a baseload delta of 400
between hours 0 and 1. -/
def volatilityExampleGrid : GridData :=
  { systemLoad := fun _ => none
    pvGeneration := fun _ => none
    windGeneration := fun _ => none
    fullGenerationData := fun i =>
      if i = 4 then some 10400 else if i = 0 then some 10000 else none
    systemBalance := fun _ => none
    reserves := []
    required := []
    reservesPresent := false }

/-- C4 counterexample: at dayOffset 1 a baseload delta of 400 is left
unscaled, not multiplied by the volatility factor 1 + 1 * 0.2 = 1.2
(which would give 480) as the claim asserts for all four deltas. -/
theorem claim_C4_counterexample :
    (buildGridCell volatilityExampleGrid 1 1 2).baseloadDelta = 400 ∧
    (400 : ℝ) * (1 + (1 : ℝ) * 0.2) = 480 ∧ (400 : ℝ) ≠ 480 := by
  refine ⟨?_, by norm_num, by norm_num⟩
  rw [buildGridCell_baseloadDelta]
  norm_num [buildCellBase, volatilityExampleGrid, getOr]

/-- C4 (amended): for dayOffset > 0 the builder scales pvGeneration and
windGeneration by exp(-dayOffset * 0.1) and systemLoad by
(1 + dayOffset * 0.005); the volatility factor (1 + dayOffset * 0.2)
scales only pvDelta and windDelta — baseloadDelta and demandDelta pass
through unscaled; dayOffset = 0 cells keep the base values; the
dayOffset = 3 cell over a base pvGeneration of 1000 decays to
1000 * exp(-0.3), within one half of 740.8. -/
theorem claim_C4_forecast_decay :
    (∀ (g : GridData) (d h : ℕ) (dow : ℤ), 0 < d →
      (buildGridCell g d h dow).pvGeneration =
        ((buildCellBase g d h dow).pvGeneration : ℝ) * Real.exp (-(d : ℝ) * 0.1) ∧
      (buildGridCell g d h dow).windGeneration =
        ((buildCellBase g d h dow).windGeneration : ℝ) * Real.exp (-(d : ℝ) * 0.1) ∧
      (buildGridCell g d h dow).systemLoad =
        ((buildCellBase g d h dow).systemLoad : ℝ) * (1 + (d : ℝ) * 0.005) ∧
      (buildGridCell g d h dow).pvDelta =
        ((buildCellBase g d h dow).pvDelta : ℝ) * (1 + (d : ℝ) * 0.2) ∧
      (buildGridCell g d h dow).windDelta =
        ((buildCellBase g d h dow).windDelta : ℝ) * (1 + (d : ℝ) * 0.2) ∧
      (buildGridCell g d h dow).baseloadDelta =
        ((buildCellBase g d h dow).baseloadDelta : ℝ) ∧
      (buildGridCell g d h dow).demandDelta =
        ((buildCellBase g d h dow).demandDelta : ℝ)) ∧
    (∀ (g : GridData) (h : ℕ) (dow : ℤ),
      buildGridCell g 0 h dow = castCell (buildCellBase g 0 h dow)) ∧
    (buildGridCell pvDecayExampleGrid 3 12 2).pvGeneration =
      1000 * Real.exp (-(0.3 : ℝ)) ∧
    |(1000 : ℝ) * Real.exp (-(0.3 : ℝ)) - 740.8| < 1/2 := by
  refine ⟨?_, fun g h dow => buildGridCell_dayOffset0 g h dow, ?_,
    exp_neg_point3_approx⟩
  · intro g d h dow hd
    obtain ⟨h1, h2, h3⟩ := buildGridCell_scaled g d h dow hd
    refine ⟨h1, h2, h3, ?_, ?_, buildGridCell_baseloadDelta g d h dow,
      buildGridCell_demandDelta g d h dow⟩
    · rw [buildGridCell_pvDelta, if_pos hd]
    · rw [buildGridCell_windDelta, if_pos hd]
  · obtain ⟨h1, _, _⟩ :=
      buildGridCell_scaled pvDecayExampleGrid 3 12 2 (by norm_num)
    rw [h1]
    have hbase : (buildCellBase pvDecayExampleGrid 3 12 2).pvGeneration = 1000 := by
      norm_num [buildCellBase, pvDecayExampleGrid, getOr]
    rw [hbase]
    norm_num

/-- C9: every grid cell has zero deltas and gradients at hour 0,
zero gradients below hour 2, and a missing preceding hourly value makes
the corresponding delta zero (the source defaults the preceding value to
the current one, never to a literal 0). -/
theorem claim_C9_same_day_deltas (g : GridData) (d h : ℕ) (dow : ℤ) :
    (h = 0 →
      (buildGridCell g d h dow).pvDelta = 0 ∧
      (buildGridCell g d h dow).windDelta = 0 ∧
      (buildGridCell g d h dow).baseloadDelta = 0 ∧
      (buildGridCell g d h dow).demandDelta = 0 ∧
      (buildGridCell g d h dow).pvGradient = 0 ∧
      (buildGridCell g d h dow).windGradient = 0) ∧
    (h < 2 →
      (buildGridCell g d h dow).pvGradient = 0 ∧
      (buildGridCell g d h dow).windGradient = 0) ∧
    (g.pvGeneration (h - 1) = none → (buildGridCell g d h dow).pvDelta = 0) ∧
    (g.windGeneration (h - 1) = none → (buildGridCell g d h dow).windDelta = 0) ∧
    (g.fullGenerationData ((h - 1) * 4) = none →
      (buildGridCell g d h dow).baseloadDelta = 0) ∧
    (g.systemLoad (h - 1) = none → (buildGridCell g d h dow).demandDelta = 0) := by
  refine ⟨?_, ?_, ?_, ?_, ?_, ?_⟩
  · rintro rfl
    obtain ⟨h1, h2, h3, h4, h5, h6⟩ := buildCellBase_deltas_hour0 g d dow
    rw [buildGridCell_pvDelta, buildGridCell_windDelta,
      buildGridCell_baseloadDelta, buildGridCell_demandDelta,
      buildGridCell_pvGradient, buildGridCell_windGradient,
      h1, h2, h3, h4, h5, h6]
    norm_num
  · intro hlt
    obtain ⟨h5, h6⟩ := buildCellBase_gradients_lt2 g d h dow hlt
    rw [buildGridCell_pvGradient, buildGridCell_windGradient, h5, h6]
    norm_num
  · intro hm
    rw [buildGridCell_pvDelta, buildCellBase_pvDelta_missing g d h dow hm]
    simp
  · intro hm
    rw [buildGridCell_windDelta, buildCellBase_windDelta_missing g d h dow hm]
    simp
  · intro hm
    rw [buildGridCell_baseloadDelta,
      buildCellBase_baseloadDelta_missing g d h dow hm]
    simp
  · intro hm
    rw [buildGridCell_demandDelta,
      buildCellBase_demandDelta_missing g d h dow hm]
    simp

/-- C10: the recommendations list is never empty: the no-reserve-data
line, a triggered advisory, the limited-analysis line or the stable-
situation line always leaves at least one entry. -/
theorem claim_C10_recommendations_nonempty (data : RiskInput) :
    (calculateRiskScore data).recommendations ≠ [] := by
  have haux : ∀ l : List String, (if l.length = 0 then [msgStable] else l) ≠ [] := by
    intro l
    split
    · simp
    · next hlen =>
      intro hc
      exact hlen (by simp [hc])
  have h : (calculateRiskScore data).recommendations =
      getRecommendations (componentScores data) data (hasReserveData data) := rfl
  rw [h]
  unfold getRecommendations
  dsimp only
  exact haux _
